import Mathlib

/-!
Shallow embedding of the recursive DNS resolver in `resolve.py`.

The engine `_lookup_recursive` is embedded as `lookupRecursive` (with an
explicit recursion fuel standing for Python's unbounded call stack), the
CNAME-chasing driver `lookup` as `lookup`, and the module-level mutable
globals `CACHE`, `RESOLVING` and `DELEGATION_CACHE` as the fields of an
explicit state record `RState` threaded through every call.

The wire transport `dns.query.udp` is a parameter (`Network`); a call
either returns a parsed `Message` or raises (timeout, `OSError`, or any
other exception), which the embedding represents with `TransportResult`.
The state additionally carries two instrumentation fields that do not
influence control flow: a transport-invocation counter and a log of
answer-cache writes.
-/

namespace Resolve

/-- A fully qualified domain name: its labels, root label left implicit,
so the root name is `[]`, `parent` is `List.tail`, and dnspython's
`len(name.labels) <= 1` test for the root becomes emptiness. -/
abbrev Name := List String

/-- `dns.rdatatype.A` -/
def typeA : Nat := 1

/-- `dns.rdatatype.NS` -/
def typeNS : Nat := 2

/-- `dns.rdatatype.CNAME` -/
def typeCNAME : Nat := 5

/-- `dns.rdatatype.SOA` -/
def typeSOA : Nat := 6

/-- The hardcoded root-server hint list from `resolve.py`. -/
def ROOT_SERVERS : List String :=
  ["198.41.0.4", "199.9.14.201", "192.33.4.12", "199.7.91.13",
   "192.203.230.10", "192.5.5.241", "192.112.36.4", "198.97.190.53",
   "192.36.148.17", "192.58.128.30", "193.0.14.129", "199.7.83.42",
   "202.12.27.33"]

/-- One rdata value inside a resource-record set: an address string
(A/AAAA) or a target domain name (CNAME/NS/MX exchange). -/
inductive Rdata where
  | ip (addr : String)
  | target (n : Name)
deriving DecidableEq

/-- dnspython's `str(rr)` for an address record; names render with a
trailing dot which `resolve.py` strips before re-parsing, so a target
renders as its labels. -/
def rdataStr : Rdata → String
  | .ip s => s
  | .target n => String.intercalate "." n

/-- The domain name carried by a target-style rdata
(`rr.target` / `dns.name.from_text(str(rr))` round-trip). -/
def rdataTargetName : Rdata → Name
  | .target n => n
  | .ip s => [s]

/-- A resource-record set: owner name, type code, and its records. -/
structure RRset where
  name : Name
  rdtype : Nat
  records : List Rdata
deriving DecidableEq

/-- A parsed DNS message (`dns.message.Message`): result code, the
question it answers, and the three record sections. -/
structure Message where
  rcode : Nat
  question : Name × Nat
  answer : List RRset
  authority : List RRset
  additional : List RRset
deriving DecidableEq

/-- The kinds of exception a single `dns.query.udp` attempt can raise:
`dns.exception.Timeout`, `OSError`, or anything else. -/
inductive ExnKind where
  | timeout
  | oserror
  | other
deriving DecidableEq

/-- Outcome of one transport call: a parsed reply, or a raised exception. -/
inductive TransportResult where
  | ok (m : Message)
  | exn (e : ExnKind)
deriving DecidableEq

/-- The wire-transport collaborator: what `dns.query.udp` does for a query
`(name, qtype)` sent to a given server address. -/
abbrev Network := Name → Nat → String → TransportResult

/-- The unit of caching and cycle detection: `(dns.name.Name, rdatatype)`. -/
abbrev QueryKey := Name × Nat

/-- The resolver's mutable globals, plus two instrumentation fields
(`transportCalls`, `writeLog`) that never influence control flow. -/
structure RState where
  cache : List (QueryKey × Message)
  resolving : List QueryKey
  delegationCache : List (Name × List String)
  transportCalls : Nat
  writeLog : List (QueryKey × Message)
deriving DecidableEq

/-- Fresh process state: all globals empty. -/
def initState : RState :=
  { cache := [], resolving := [], delegationCache := [],
    transportCalls := 0, writeLog := [] }

/-- Count one `dns.query.udp` invocation. -/
def incCalls (s : RState) : RState :=
  { s with transportCalls := s.transportCalls + 1 }

/-- `CACHE[key] = m`: dict assignment, modelled as a prepend read through
first-match lookup; the write is also appended to the write log. -/
def cacheWrite (k : QueryKey) (m : Message) (s : RState) : RState :=
  { s with cache := (k, m) :: s.cache, writeLog := s.writeLog ++ [(k, m)] }

/-- `DELEGATION_CACHE[zone] = ips`. -/
def writeDeleg (z : Name) (ips : List String) (s : RState) : RState :=
  { s with delegationCache := (z, ips) :: s.delegationCache }

/-- `RESOLVING.add(key)` (only ever called on a key not present). -/
def addResolving (k : QueryKey) (s : RState) : RState :=
  { s with resolving := k :: s.resolving }

/-- `RESOLVING.discard(key)`. -/
def delResolving (k : QueryKey) (s : RState) : RState :=
  { s with resolving := s.resolving.filter (fun k2 => decide (k2 ≠ k)) }

/-- First-match association lookup, the read side of dict assignment. -/
def assocFind (l : List (QueryKey × Message)) (k : QueryKey) : Option Message :=
  match l with
  | [] => none
  | p :: ps => if p.1 = k then some p.2 else assocFind ps k

/-- First-match lookup in the delegation cache. -/
def dcFind (dc : List (Name × List String)) (z : Name) : Option (List String) :=
  match dc with
  | [] => none
  | p :: ps => if p.1 = z then some p.2 else dcFind ps z

/-- `list(dict.fromkeys(l))`: deduplicate keeping first-seen order; `seen`
is the set of keys already emitted. -/
def dedupFirst (seen : List String) : List String → List String
  | [] => []
  | x :: xs =>
    if x ∈ seen then dedupFirst seen xs else x :: dedupFirst (x :: seen) xs

/-- `':' in server_ip`: the engine's IPv4-literal guard. -/
def hasColon (s : String) : Bool :=
  s.data.contains ':'

/-- `any(rrset.rdtype == SOA for rrset in response.authority)`. -/
def hasSOA (auth : List RRset) : Bool :=
  auth.any (fun r => decide (r.rdtype = typeSOA))

/-- The authority scan of lines 143-150: for each NS record set record the
zone being delegated (last one seen wins) and append its targets. -/
def zoneNsGo (acc : Option Name × List Name) : List RRset → Option Name × List Name
  | [] => acc
  | r :: rs =>
    if r.rdtype = typeNS then
      zoneNsGo (some r.name, acc.2 ++ r.records.map rdataTargetName) rs
    else
      zoneNsGo acc rs

/-- Delegated zone name and nameserver names extracted from an authority
section. -/
def zoneAndNs (auth : List RRset) : Option Name × List Name :=
  zoneNsGo (none, []) auth

/-- All address strings of the A record sets of an answer section
(lines 194-197: every record of every A record set). -/
def ipsOfAnswer : List RRset → List String
  | [] => []
  | r :: rs =>
    (if r.rdtype = typeA then r.records.map rdataStr else []) ++ ipsOfAnswer rs

/-- Glue extraction (lines 158-161): `str(rrset[0])` for each A record set
of the additional section, in order — only the FIRST record of each set.
An A record set with no records makes `rrset[0]` raise `IndexError`
(swallowed by the attempt's catch-all), modelled as `none`. -/
def glueOf : List RRset → Option (List String)
  | [] => some []
  | r :: rs =>
    if r.rdtype = typeA then
      match r.records with
      | [] => none
      | d :: _ =>
        match glueOf rs with
        | some ips => some (rdataStr d :: ips)
        | none => none
    else glueOf rs

/-- The driver's CNAME scan (lines 298-304): first CNAME record set in the
answer, target taken from its first record. -/
def findCname (ans : List RRset) : Option Name :=
  match ans.find? (fun r => decide (r.rdtype = typeCNAME)) with
  | some r => some (rdataTargetName (r.records.headD (Rdata.target [])))
  | none => none

/-- `dns.message.make_response(make_query(name, qtype))` with the given
record sets appended to its answer section. -/
def synthMessage (name : Name) (qtype : Nat) (answers : List RRset) : Message :=
  { rcode := 0, question := (name, qtype), answer := answers,
    authority := [], additional := [] }

/-- The ancestor walk of lines 247-254: starting at the name itself, use
the first zone with a nonempty delegation-cache entry; stop at the root. -/
def walkStart (dc : List (Name × List String)) : Name → Option (List String)
  | [] =>
    match dcFind dc [] with
    | some ips => if ips = [] then none else some ips
    | none => none
  | lab :: rest =>
    match dcFind dc (lab :: rest) with
    | some ips => if ips = [] then walkStart dc rest else some ips
    | none => walkStart dc rest

/-- Starting server list for one driver iteration (lines 246-256): the
walk's result, or the root-server list when the walk finds nothing. -/
def findStartServers (dc : List (Name × List String)) (n : Name) : List String :=
  (walkStart dc n).getD ROOT_SERVERS

/-- Modelled from the spec's words, for comparison with `walkStart`: "use
the first ancestor (including the name itself) found in DelegationCache",
with bare presence as the criterion. -/
def specFirstAncestor (dc : List (Name × List String)) : Name → Option (List String)
  | [] => dcFind dc []
  | lab :: rest =>
    match dcFind dc (lab :: rest) with
    | some ips => some ips
    | none => specFirstAncestor dc rest

/-- The type of the engine re-entry point handed to the two loops below. -/
abbrev Recur := RState → Name → Nat → List String → Option Message × RState

/-- The glueless NS-resolution loop (lines 172-200): for each nameserver
name in order, skip it if its A-key is mid-resolution, otherwise take its
cached answer or resolve it from the roots (marking it in RESOLVING for
the duration), collect all A addresses of the answer, and stop once at
least 3 addresses have been collected. -/
def collectNs (net : Network) (recur : Recur) :
    RState → List Name → List String → List String × RState
  | s, [], acc => (acc, s)
  | s, nsName :: rest, acc =>
    if (nsName, typeA) ∈ s.resolving then
      collectNs net recur s rest acc
    else
      let step : Option Message × RState :=
        match assocFind s.cache (nsName, typeA) with
        | some m => (some m, s)
        | none =>
          let s1 := addResolving (nsName, typeA) s
          let r := recur s1 nsName typeA ROOT_SERVERS
          (r.1, delResolving (nsName, typeA) r.2)
      let acc1 :=
        match step.1 with
        | some m => if m.answer = [] then acc else acc ++ ipsOfAnswer m.answer
        | none => acc
      if 3 ≤ acc1.length then (acc1, step.2)
      else collectNs net recur step.2 rest acc1

/-- The per-server attempt loop of `_lookup_recursive` (lines 115-215),
already running on the deduplicated server list. Any raised exception
(timeout, `OSError`, or other) advances to the next server. -/
def serverLoop (net : Network) (recur : Recur) (name : Name) (qtype : Nat) :
    RState → List String → Option Message × RState
  | s, [] => (none, s)
  | s, ip :: rest =>
    if hasColon ip then serverLoop net recur name qtype s rest
    else
      match net name qtype ip with
      | .exn _ => serverLoop net recur name qtype (incCalls s) rest
      | .ok resp =>
        let s1 := incCalls s
        if resp.answer ≠ [] then
          (some resp, cacheWrite (name, qtype) resp s1)
        else if resp.rcode ≠ 0 then
          (some resp, cacheWrite (name, qtype) resp s1)
        else if hasSOA resp.authority then
          (some resp, cacheWrite (name, qtype) resp s1)
        else if resp.authority ≠ [] then
          let zn := zoneAndNs resp.authority
          if zn.2 = [] then
            (some resp, cacheWrite (name, qtype) resp s1)
          else
            match glueOf resp.additional with
            | none => serverLoop net recur name qtype s1 rest
            | some glue =>
              if glue ≠ [] then
                let s2 :=
                  match zn.1 with
                  | some z => writeDeleg z (dedupFirst [] glue) s1
                  | none => s1
                let r := recur s2 name qtype glue
                match r.1 with
                | some m => (some m, r.2)
                | none => serverLoop net recur name qtype r.2 rest
              else
                let c := collectNs net recur s1 zn.2 []
                let ips :=
                  if c.1 = [] then c.1
                  else dedupFirst [] (c.1.filter (fun ip2 => ¬ hasColon ip2))
                let s3 :=
                  if c.1 = [] then c.2
                  else
                    match zn.1 with
                    | some z => writeDeleg z ips c.2
                    | none => c.2
                if ips ≠ [] then
                  let r := recur s3 name qtype ips
                  match r.1 with
                  | some m => (some m, r.2)
                  | none => serverLoop net recur name qtype r.2 rest
                else
                  serverLoop net recur name qtype s3 rest
        else
          serverLoop net recur name qtype s1 rest

/-- `_lookup_recursive(target_name, qtype, nameservers)`: answer-cache
check, then the exhaustive attempt loop over the deduplicated server
list. `fuel` bounds the recursion depth, standing for Python's call
stack; exhausted fuel yields `none` like a failed attempt. -/
def lookupRecursive (net : Network) :
    Nat → RState → Name → Nat → List String → Option Message × RState
  | 0, s, _, _, _ => (none, s)
  | fuel + 1, s, name, qtype, servers =>
    match assocFind s.cache (name, qtype) with
    | some m => (some m, s)
    | none =>
      serverLoop net (fun s1 n1 t1 l1 => lookupRecursive net fuel s1 n1 t1 l1)
        name qtype s (dedupFirst [] servers)

/-- The driver's CNAME-chasing loop (lines 241-323). `rem` is the number
of iterations the `cname_chain_count < 10` guard still allows; the third
component of the result counts the loop-body executions performed. -/
def lookupLoop (net : Network) (efuel : Nat) (origName : Name) (origType : Nat) :
    Nat → RState → Name → List RRset → Message × RState × Nat
  | 0, s, _, acc =>
    let m := synthMessage origName origType acc
    (m, cacheWrite (origName, origType) m s, 0)
  | rem + 1, s, targetName, acc =>
    let startServers := findStartServers s.delegationCache targetName
    let r := lookupRecursive net efuel s targetName origType startServers
    match r.1 with
    | none =>
      if acc ≠ [] then
        let m := synthMessage origName origType acc
        (m, cacheWrite (origName, origType) m r.2, 1)
      else
        let m := synthMessage origName origType []
        (m, cacheWrite (origName, origType) m r.2, 1)
    | some resp =>
      if resp.answer = [] then
        if acc ≠ [] then
          let m := synthMessage origName origType acc
          (m, cacheWrite (origName, origType) m r.2, 1)
        else
          (resp, cacheWrite (origName, origType) resp r.2, 1)
      else
        let acc1 := acc ++ resp.answer
        if resp.answer.any (fun rr => decide (rr.rdtype = origType)) then
          let m := synthMessage origName origType acc1
          (m, cacheWrite (origName, origType) m r.2, 1)
        else
          match findCname resp.answer with
          | some tgt =>
            let rec1 := lookupLoop net efuel origName origType rem r.2 tgt acc1
            (rec1.1, rec1.2.1, rec1.2.2 + 1)
          | none =>
            let m := synthMessage origName origType acc1
            (m, cacheWrite (origName, origType) m r.2, 1)

/-- `lookup(target_name, qtype)`: answer-cache check, then the bounded
CNAME-chasing loop; always yields a `Message`. -/
def lookup (net : Network) (efuel : Nat) (s : RState) (name : Name) (qtype : Nat) :
    Message × RState :=
  match assocFind s.cache (name, qtype) with
  | some m => (m, s)
  | none =>
    let r := lookupLoop net efuel name qtype 10 s name []
    (r.1, r.2.1)

/-! ### Concrete stub topologies used by counterexamples and witnesses -/

/-- A CNAME record set aliasing `a.` to itself. -/
def cnameRRsetA : RRset :=
  { name := ["a"], rdtype := typeCNAME, records := [Rdata.target ["a"]] }

/-- A reply whose only content is the self-aliasing CNAME. -/
def cnameMsg : Message :=
  { rcode := 0, question := (["a"], typeA), answer := [cnameRRsetA],
    authority := [], additional := [] }

/-- A stub topology that answers every query with the CNAME self-loop. -/
def cycleNet : Network := fun _ _ _ => TransportResult.ok cnameMsg

/-- A transport in which every server attempt times out. -/
def netTimeoutAll : Network := fun _ _ _ => TransportResult.exn ExnKind.timeout

/-- An A record set for `a.`. -/
def aRR3 : RRset :=
  { name := ["a"], rdtype := typeA, records := [Rdata.ip "3.1.1.1"] }

/-- A final positive answer for `a.`/A. -/
def mW3 : Message :=
  { rcode := 0, question := (["a"], typeA), answer := [aRR3],
    authority := [], additional := [] }

/-- Server `7.7.7.7` answers, everything else times out. -/
def netW3 : Network := fun _ _ ip =>
  if ip = "7.7.7.7" then TransportResult.ok mW3 else TransportResult.exn ExnKind.timeout

/-- A dead-end reply: empty answer, NOERROR, and an empty authority
section. -/
def m04 : Message :=
  { rcode := 0, question := (["a"], typeA), answer := [],
    authority := [], additional := [] }

/-- An A record set with address `4.3.2.1`. -/
def aRR4 : RRset :=
  { name := ["a"], rdtype := typeA, records := [Rdata.ip "4.3.2.1"] }

/-- A final positive answer used as the second server's reply. -/
def mY4 : Message :=
  { rcode := 0, question := (["a"], typeA), answer := [aRR4],
    authority := [], additional := [] }

/-- Server `1.1.1.1` replies with the dead end `m04`; any other server
replies with the final answer `mY4`. -/
def netC4 : Network := fun _ _ ip =>
  if ip = "1.1.1.1" then TransportResult.ok m04 else TransportResult.ok mY4

/-- A TXT-style record set (type 16): neither SOA nor NS. -/
def txtRR4 : RRset :=
  { name := ["a"], rdtype := 16, records := [Rdata.ip "hello"] }

/-- A dead-end reply whose authority section is nonempty but holds
neither an SOA nor an NS record set. -/
def deadEnd4 : Message :=
  { rcode := 0, question := (["a"], typeA), answer := [],
    authority := [txtRR4], additional := [] }

/-- Every server replies with the nonempty-authority dead end. -/
def netW4 : Network := fun _ _ _ => TransportResult.ok deadEnd4

/-- Target name of the glueless-referral scenarios. -/
def tgt5 : Name := ["w", "com"]

/-- First delegate nameserver name. -/
def nsn1 : Name := ["n1"]

/-- Second delegate nameserver name. -/
def nsn2 : Name := ["n2"]

/-- Third delegate nameserver name. -/
def nsn3 : Name := ["n3"]

/-- Fourth delegate nameserver name. -/
def nsn4 : Name := ["n4"]

/-- NS record set delegating `com.` to the four nameserver names. -/
def nsRR5 : RRset :=
  { name := ["com"], rdtype := typeNS,
    records := [Rdata.target nsn1, Rdata.target nsn2,
                Rdata.target nsn3, Rdata.target nsn4] }

/-- The glueless referral: NS names in authority, empty additional. -/
def referral5 : Message :=
  { rcode := 0, question := (tgt5, typeA), answer := [],
    authority := [nsRR5], additional := [] }

/-- An NXDOMAIN reply for the given name. -/
def nxMsg (n : Name) : Message :=
  { rcode := 3, question := (n, typeA), answer := [],
    authority := [], additional := [] }

/-- The fourth nameserver name resolves to `4.4.4.4`. -/
def a4Msg : Message :=
  { rcode := 0, question := (nsn4, typeA),
    answer := [{ name := nsn4, rdtype := typeA, records := [Rdata.ip "4.4.4.4"] }],
    authority := [], additional := [] }

/-- The final answer for the target, served by `4.4.4.4`. -/
def final5 : Message :=
  { rcode := 0, question := (tgt5, typeA),
    answer := [{ name := tgt5, rdtype := typeA, records := [Rdata.ip "9.9.9.9"] }],
    authority := [], additional := [] }

/-- Glueless topology: the roots refer `tgt5` to four NS names; the first
three names are NXDOMAIN, the fourth resolves to `4.4.4.4`, which then
serves the final answer. -/
def netC5 : Network := fun name _ ip =>
  if ip = "4.4.4.4" then TransportResult.ok final5
  else if name = nsn1 then TransportResult.ok (nxMsg nsn1)
  else if name = nsn2 then TransportResult.ok (nxMsg nsn2)
  else if name = nsn3 then TransportResult.ok (nxMsg nsn3)
  else if name = nsn4 then TransportResult.ok a4Msg
  else TransportResult.ok referral5

/-- An answer carrying three A addresses at once. -/
def msgThreeA : Message :=
  { rcode := 0, question := (nsn1, typeA),
    answer := [{ name := nsn1, rdtype := typeA,
                 records := [Rdata.ip "5.5.5.1", Rdata.ip "5.5.5.2", Rdata.ip "5.5.5.3"] }],
    authority := [], additional := [] }

/-- A stub engine re-entry that resolves every name to `msgThreeA`
without touching the state. -/
def recurW5 : Recur := fun s _ _ _ => (some msgThreeA, s)

/-- A glue A record set carrying TWO addresses for `ns1.com.`. -/
def glueRR6 : RRset :=
  { name := ["ns1", "com"], rdtype := typeA,
    records := [Rdata.ip "1.1.1.1", Rdata.ip "2.2.2.2"] }

/-- NS record set delegating `com.` to `ns1.com.`. -/
def nsRR6 : RRset :=
  { name := ["com"], rdtype := typeNS, records := [Rdata.target ["ns1", "com"]] }

/-- A glued referral whose additional section's A record set holds two
addresses. -/
def referral6 : Message :=
  { rcode := 0, question := (tgt5, typeA), answer := [],
    authority := [nsRR6], additional := [glueRR6] }

/-- The final answer served by `1.1.1.1`. -/
def final6 : Message :=
  { rcode := 0, question := (tgt5, typeA),
    answer := [{ name := tgt5, rdtype := typeA, records := [Rdata.ip "6.6.6.6"] }],
    authority := [], additional := [] }

/-- Glued topology: `1.1.1.1` serves the final answer, `2.2.2.2` serves
NXDOMAIN, everything else serves the two-address referral. -/
def netC6 : Network := fun _ _ ip =>
  if ip = "1.1.1.1" then TransportResult.ok final6
  else if ip = "2.2.2.2" then TransportResult.ok (nxMsg ["zz"])
  else TransportResult.ok referral6

/-- The answer written by the engine in the double-write scenario: note
the nonempty authority section. -/
def mAns7 : Message :=
  { rcode := 0, question := (["a"], typeA),
    answer := [{ name := ["a"], rdtype := typeA, records := [Rdata.ip "1.2.3.4"] }],
    authority := [{ name := ["a"], rdtype := typeSOA, records := [Rdata.ip "soa"] }],
    additional := [] }

/-- Every server serves the final answer `mAns7`. -/
def netC7 : Network := fun _ _ _ => TransportResult.ok mAns7

/-- A delegation cache holding a `com.` entry. -/
def dc9 : List (Name × List String) := [(["com"], ["5.5.5.5"])]

/-- The answer served in the any-exception witness topology. -/
def mW10 : Message :=
  { rcode := 0, question := (["c"], typeA),
    answer := [{ name := ["c"], rdtype := typeA, records := [Rdata.ip "10.0.0.1"] }],
    authority := [], additional := [] }

/-- Server `6.6.6.6` raises a non-transport exception; every other server
answers. -/
def netW10 : Network := fun _ _ ip =>
  if ip = "6.6.6.6" then TransportResult.exn ExnKind.other else TransportResult.ok mW10

/-! ### General lemmas -/

/-- Appending a single element makes it the last one. -/
theorem getLast?_append_singleton {α : Type} : ∀ (l : List α) (a : α),
    (l ++ [a]).getLast? = some a
  | [], _ => rfl
  | [_], _ => rfl
  | _ :: y :: ys, a => getLast?_append_singleton (y :: ys) a

/-- A cache write is immediately visible under its key. -/
theorem assocFind_cacheWrite_self (k : QueryKey) (m : Message) (s : RState) :
    assocFind (cacheWrite k m s).cache k = some m := by
  simp [cacheWrite, assocFind]

/-- Every branch of the driver loop ends in a cache write under the
original key holding exactly the returned message; the loop body runs at
most `rem` times. -/
theorem lookupLoop_terminal (net : Network) (efuel : Nat) (oN : Name) (oT : Nat) :
    ∀ rem s tgt acc,
      assocFind (lookupLoop net efuel oN oT rem s tgt acc).2.1.cache (oN, oT) =
          some (lookupLoop net efuel oN oT rem s tgt acc).1 ∧
        (lookupLoop net efuel oN oT rem s tgt acc).2.1.writeLog.getLast? =
          some ((oN, oT), (lookupLoop net efuel oN oT rem s tgt acc).1) ∧
        (lookupLoop net efuel oN oT rem s tgt acc).2.2 ≤ rem := by
  intro rem
  induction rem with
  | zero =>
    intro s tgt acc
    refine ⟨?_, ?_, ?_⟩ <;>
      simp [lookupLoop, cacheWrite, assocFind, getLast?_append_singleton]
  | succ r ih =>
    intro s tgt acc
    simp only [lookupLoop]
    rcases h1 : (lookupRecursive net efuel s tgt oT
        (findStartServers s.delegationCache tgt)).1 with _ | resp <;>
      simp only [h1]
    · split_ifs <;>
        refine ⟨?_, ?_, ?_⟩ <;>
        simp [cacheWrite, assocFind, getLast?_append_singleton]
    · split_ifs with hempty hacc hfound
      · refine ⟨?_, ?_, ?_⟩ <;>
          simp [cacheWrite, assocFind, getLast?_append_singleton]
      · refine ⟨?_, ?_, ?_⟩ <;>
          simp [cacheWrite, assocFind, getLast?_append_singleton]
      · refine ⟨?_, ?_, ?_⟩ <;>
          simp [cacheWrite, assocFind, getLast?_append_singleton]
      · rcases h2 : findCname resp.answer with _ | tgt2 <;> simp only [h2]
        · refine ⟨?_, ?_, ?_⟩ <;>
            simp [cacheWrite, assocFind, getLast?_append_singleton]
        · exact ⟨(ih _ _ _).1, (ih _ _ _).2.1, Nat.succ_le_succ (ih _ _ _).2.2⟩

/-- One-step unfolding of the engine at positive fuel. -/
theorem lookupRecursive_succ (net : Network) (f : Nat) (s : RState) (n : Name)
    (qt : Nat) (servers : List String) :
    lookupRecursive net (f + 1) s n qt servers =
      match assocFind s.cache (n, qt) with
      | some m => (some m, s)
      | none =>
        serverLoop net (fun s1 n1 t1 l1 => lookupRecursive net f s1 n1 t1 l1)
          n qt s (dedupFirst [] servers) := rfl

/-- On a cache miss the engine is the attempt loop over the deduplicated
server list. -/
theorem lookupRecursive_miss (net : Network) (f : Nat) (s : RState) (n : Name)
    (qt : Nat) (servers : List String) (h : assocFind s.cache (n, qt) = none) :
    lookupRecursive net (f + 1) s n qt servers =
      serverLoop net (fun s1 n1 t1 l1 => lookupRecursive net f s1 n1 t1 l1)
        n qt s (dedupFirst [] servers) := by
  rw [lookupRecursive_succ, h]

/-- A cache hit short-circuits `lookup` with no state change. -/
theorem lookup_cache_hit (net : Network) (efuel : Nat) (s : RState) (n : Name)
    (qt : Nat) (m : Message) (h : assocFind s.cache (n, qt) = some m) :
    lookup net efuel s n qt = (m, s) := by
  simp [lookup, h]

/-- After any `lookup`, the answer cache maps the queried key to exactly
the returned message. -/
theorem lookup_result_cached (net : Network) (efuel : Nat) (s : RState) (n : Name)
    (qt : Nat) :
    assocFind (lookup net efuel s n qt).2.cache (n, qt) =
      some (lookup net efuel s n qt).1 := by
  rcases h : assocFind s.cache (n, qt) with _ | m
  · simp only [lookup, h]
    exact (lookupLoop_terminal net efuel n qt 10 s n []).1
  · simp [lookup, h]

/-- A successful delegation-cache lookup exhibits a member of the list. -/
theorem dcFind_mem {dc : List (Name × List String)} {z : Name} {v : List String}
    (h : dcFind dc z = some v) : (z, v) ∈ dc := by
  induction dc with
  | nil => simp [dcFind] at h
  | cons p ps ih =>
    simp only [dcFind] at h
    by_cases hp : p.1 = z
    · rw [if_pos hp] at h
      have hv : p.2 = v := Option.some_inj.mp h
      have hpz : p = (z, v) := by
        cases p
        simp only at hp hv
        rw [hp, hv]
      rw [← hpz]
      exact List.mem_cons_self p ps
    · rw [if_neg hp] at h
      exact List.mem_cons_of_mem _ (ih h)

/-- Deduplication only depends on the membership of the seen-set. -/
theorem dedupFirst_congr (seen seen' : List String)
    (h : ∀ a, a ∈ seen ↔ a ∈ seen') :
    ∀ l, dedupFirst seen l = dedupFirst seen' l := by
  intro l
  induction l generalizing seen seen' with
  | nil => rfl
  | cons y ys ih =>
    simp only [dedupFirst]
    by_cases hy : y ∈ seen
    · rw [if_pos hy, if_pos ((h y).1 hy)]
      exact ih seen seen' h
    · rw [if_neg hy, if_neg (fun hc => hy ((h y).2 hc))]
      rw [ih (y :: seen) (y :: seen') (fun a => by simp [List.mem_cons, h a])]

/-- A seen-set element that never occurs in the list is irrelevant. -/
theorem dedupFirst_seen_notmem (x : String) :
    ∀ (l : List String) (seen : List String), x ∉ l →
      dedupFirst (x :: seen) l = dedupFirst seen l := by
  intro l
  induction l with
  | nil => intro seen _; rfl
  | cons y ys ih =>
    intro seen hx
    have hx1 : ¬ x = y := fun hEq => hx (by rw [hEq]; exact List.mem_cons_self y ys)
    have hx2 : x ∉ ys := fun hc => hx (List.mem_cons_of_mem _ hc)
    simp only [dedupFirst]
    by_cases hy : y ∈ seen
    · rw [if_pos (List.mem_cons_of_mem _ hy), if_pos hy]
      exact ih seen hx2
    · have hyx : ¬ y ∈ x :: seen := by
        simp only [List.mem_cons]
        rintro (hc | hc)
        · exact hx1 hc.symm
        · exact hy hc
      rw [if_neg hyx, if_neg hy]
      rw [dedupFirst_congr (y :: x :: seen) (x :: y :: seen)
        (fun a => by simp [List.mem_cons]; tauto) ys]
      rw [ih (y :: seen) hx2]

/-- First driver iteration when the engine fails completely: the empty
synthesized response is cached under the original key and returned. -/
theorem lookupLoop_fail_first (net : Network) (efuel : Nat) (oN : Name) (oT : Nat)
    (rem : Nat) (s : RState)
    (h0 : (lookupRecursive net efuel s oN oT
        (findStartServers s.delegationCache oN)).1 = none) :
    lookupLoop net efuel oN oT (rem + 1) s oN [] =
      (synthMessage oN oT [],
        cacheWrite (oN, oT) (synthMessage oN oT [])
          (lookupRecursive net efuel s oN oT
            (findStartServers s.delegationCache oN)).2, 1) := by
  simp [lookupLoop, h0]

/-- First driver iteration when the engine returns a message with an
empty answer section: that raw message is cached and returned. -/
theorem lookupLoop_neg_first (net : Network) (efuel : Nat) (oN : Name) (oT : Nat)
    (rem : Nat) (s : RState) (m : Message)
    (h0 : (lookupRecursive net efuel s oN oT
        (findStartServers s.delegationCache oN)).1 = some m)
    (hm : m.answer = []) :
    lookupLoop net efuel oN oT (rem + 1) s oN [] =
      (m, cacheWrite (oN, oT) m
        (lookupRecursive net efuel s oN oT
          (findStartServers s.delegationCache oN)).2, 1) := by
  simp [lookupLoop, h0, hm]

/-! ### Claim theorems -/

/-- C1: `lookup` always returns a `Message`, never an absent result: when
the engine's resolution fails completely (returns `none`) on a fresh key,
`lookup` returns the synthesized empty response, and when the engine
returns a raw negative message (empty answer section) it returns that raw
message; in both cases the result is cached under the original
`(name, type)` key. -/
theorem claim1_lookup_total_on_failure (net : Network) (efuel : Nat) (s : RState)
    (n : Name) (qt : Nat) (hmiss : assocFind s.cache (n, qt) = none) :
    ((lookupRecursive net efuel s n qt (findStartServers s.delegationCache n)).1 = none →
        lookup net efuel s n qt =
          (synthMessage n qt [],
            cacheWrite (n, qt) (synthMessage n qt [])
              (lookupRecursive net efuel s n qt
                (findStartServers s.delegationCache n)).2)) ∧
      ∀ m, (lookupRecursive net efuel s n qt
            (findStartServers s.delegationCache n)).1 = some m →
        m.answer = [] →
        lookup net efuel s n qt =
          (m, cacheWrite (n, qt) m
            (lookupRecursive net efuel s n qt
              (findStartServers s.delegationCache n)).2) := by
  constructor
  · intro h0
    simp only [lookup, hmiss]
    rw [show (10 : Nat) = 9 + 1 from rfl, lookupLoop_fail_first net efuel n qt 9 s h0]
  · intro m h0 hm
    simp only [lookup, hmiss]
    rw [show (10 : Nat) = 9 + 1 from rfl, lookupLoop_neg_first net efuel n qt 9 s m h0 hm]

/-- C1 witness: with every transport attempt timing out, `lookup` for a
fresh key returns the synthesized empty response and caches it. -/
theorem claim1_witness :
    assocFind initState.cache ((["w"] : Name), typeA) = none ∧
      (lookupRecursive netTimeoutAll 1 initState ["w"] typeA
          (findStartServers initState.delegationCache ["w"])).1 = none ∧
      lookup netTimeoutAll 1 initState ["w"] typeA =
        (synthMessage ["w"] typeA [],
          cacheWrite ((["w"] : Name), typeA) (synthMessage ["w"] typeA [])
            (lookupRecursive netTimeoutAll 1 initState ["w"] typeA
              (findStartServers initState.delegationCache ["w"])).2) :=
  ⟨by decide, by decide,
    (claim1_lookup_total_on_failure netTimeoutAll 1 initState ["w"] typeA
      (by decide)).1 (by decide)⟩

/-- C2: the CNAME-chasing loop executes its body at most 10 times, for
every input; and on the concrete self-aliasing CNAME cycle it performs
exactly 10 iterations and returns the message synthesized from the 10
accumulated CNAME record sets instead of looping forever. -/
theorem claim2_cname_loop_bound :
    (∀ (net : Network) (efuel : Nat) (oN : Name) (oT : Nat) (s : RState)
        (tgt : Name) (acc : List RRset),
        (lookupLoop net efuel oN oT 10 s tgt acc).2.2 ≤ 10) ∧
      (lookup cycleNet 1 initState ["a"] typeA).1 =
        synthMessage ["a"] typeA (List.replicate 10 cnameRRsetA) ∧
      (lookupLoop cycleNet 1 ["a"] typeA 10 initState ["a"] []).2.2 = 10 :=
  ⟨fun net efuel oN oT s tgt acc =>
      (lookupLoop_terminal net efuel oN oT 10 s tgt acc).2.2,
    by decide, by decide⟩

/-- C3: a transport timeout on the first candidate server is a soft
failure: with candidates `[X, Y]` where `X` times out and `Y` returns a
final answer, the engine returns `Y`'s answer. -/
theorem claim3_timeout_soft_failure (net : Network) (f : Nat) (s : RState)
    (n : Name) (qt : Nat) (X Y : String) (m : Message)
    (hmiss : assocFind s.cache (n, qt) = none)
    (hXY : X ≠ Y)
    (hXc : hasColon X = false) (hYc : hasColon Y = false)
    (hx : net n qt X = TransportResult.exn ExnKind.timeout)
    (hy : net n qt Y = TransportResult.ok m)
    (hm : m.answer ≠ []) :
    (lookupRecursive net (f + 1) s n qt [X, Y]).1 = some m := by
  rw [lookupRecursive_miss _ _ _ _ _ _ hmiss]
  have hd : dedupFirst [] [X, Y] = [X, Y] := by
    simp [dedupFirst, hXY.symm]
  rw [hd]
  simp [serverLoop, hXc, hYc, hx, hy, hm]

/-- C3 witness: `6.6.6.6` times out, `7.7.7.7` serves the final answer,
and the engine returns that answer. -/
theorem claim3_witness :
    netW3 (["a"] : Name) typeA "6.6.6.6" = TransportResult.exn ExnKind.timeout ∧
      netW3 ["a"] typeA "7.7.7.7" = TransportResult.ok mW3 ∧
      mW3.answer ≠ [] ∧
      (lookupRecursive netW3 1 initState ["a"] typeA ["6.6.6.6", "7.7.7.7"]).1 =
        some mW3 :=
  ⟨by decide, by decide, by decide,
    claim3_timeout_soft_failure netW3 0 initState ["a"] typeA "6.6.6.6" "7.7.7.7" mW3
      (by decide) (by decide) (by decide) (by decide) (by decide) (by decide) (by decide)⟩

/-- C4 counterexample: a reply with empty answer, result code success and
an EMPTY authority section (no SOA, no NS — a dead end per the claim) is
NOT treated as terminal: the engine goes on to the second server, returns
and caches that server's answer instead of the dead-end reply. -/
theorem claim4_counterexample :
    (lookupRecursive netC4 1 initState ["a"] typeA ["1.1.1.1", "2.2.2.2"]).1 =
        some mY4 ∧
      assocFind (lookupRecursive netC4 1 initState ["a"] typeA
          ["1.1.1.1", "2.2.2.2"]).2.cache (["a"], typeA) = some mY4 ∧
      mY4 ≠ m04 := by
  refine ⟨by decide, by decide, by decide⟩

/-- C4 amended: a dead-end reply is cached and returned as terminal only
when the authority section is NONEMPTY yet yields no NS names (and has no
SOA); with an entirely empty authority section the engine instead falls
through to the next candidate server. -/
theorem claim4_deadend_nonempty_authority (net : Network) (f : Nat) (s : RState)
    (n : Name) (qt : Nat) (x : String) (rest : List String) (m : Message)
    (hmiss : assocFind s.cache (n, qt) = none)
    (hcol : hasColon x = false)
    (hnet : net n qt x = TransportResult.ok m)
    (hans : m.answer = []) (hrc : m.rcode = 0)
    (hsoa : hasSOA m.authority = false)
    (hauth : m.authority ≠ [])
    (hns : (zoneAndNs m.authority).2 = []) :
    lookupRecursive net (f + 1) s n qt (x :: rest) =
      (some m, cacheWrite (n, qt) m (incCalls s)) := by
  rw [lookupRecursive_miss _ _ _ _ _ _ hmiss]
  have hd : dedupFirst [] (x :: rest) = x :: dedupFirst [x] rest := by
    simp [dedupFirst]
  rw [hd]
  simp [serverLoop, hcol, hnet, hans, hrc, hsoa, hauth, hns]

/-- C4 witness: a nonempty authority section holding only a TXT record
set (no SOA, no NS) is cached verbatim and returned. -/
theorem claim4_witness :
    deadEnd4.authority ≠ [] ∧
      lookupRecursive netW4 1 initState ["a"] typeA ["8.8.8.8"] =
        (some deadEnd4, cacheWrite ((["a"] : Name), typeA) deadEnd4 (incCalls initState)) :=
  ⟨by decide,
    claim4_deadend_nonempty_authority netW4 0 initState ["a"] typeA "8.8.8.8" [] deadEnd4
      (by decide) (by decide) (by decide) (by decide) (by decide) (by decide)
      (by decide) (by decide)⟩

/-- C5 counterexample: on a glueless referral naming four delegate
nameservers whose first three fail to resolve, the engine resolves the
FOURTH name as well (its answer ends up in the cache and its address
carries the resolution to success), contradicting "at most the first 3
delegate nameserver names are resolved". -/
theorem claim5_counterexample :
    (lookupRecursive netC5 2 initState tgt5 typeA ["198.41.0.4"]).1 = some final5 ∧
      assocFind (lookupRecursive netC5 2 initState tgt5 typeA
          ["198.41.0.4"]).2.cache (nsn4, typeA) = some a4Msg := by
  refine ⟨by decide, by decide⟩

/-- C5 amended: the glueless loop is bounded by collected ADDRESSES, not
by nameserver names: it walks the delegate names in order (past the first
three when they yield nothing) and stops right after the first name whose
processing brings the collected-address total to at least 3, leaving the
remaining names unresolved. -/
theorem claim5_stop_at_three_addresses (net : Network) (recur : Recur) (s : RState)
    (nsName : Name) (rest : List Name) (acc : List String)
    (hnr : (nsName, typeA) ∉ s.resolving)
    (h3 : 3 ≤ (collectNs net recur s [nsName] acc).1.length) :
    collectNs net recur s (nsName :: rest) acc =
      collectNs net recur s [nsName] acc := by
  simp only [collectNs, hnr, if_false, ite_self] at h3 ⊢
  rw [if_pos h3]

/-- C5 witness: a nameserver name resolving to three addresses at once
stops the loop; the second name is never processed. -/
theorem claim5_witness :
    ((nsn1, typeA) ∉ initState.resolving) ∧
      3 ≤ (collectNs netTimeoutAll recurW5 initState [nsn1] []).1.length ∧
      collectNs netTimeoutAll recurW5 initState [nsn1, nsn2] [] =
        collectNs netTimeoutAll recurW5 initState [nsn1] [] :=
  ⟨by decide, by decide,
    claim5_stop_at_three_addresses netTimeoutAll recurW5 initState nsn1 [nsn2] []
      (by decide) (by decide)⟩

/-- C6 counterexample: a referral whose additional section holds one A
record set with TWO addresses yields a delegation-cache entry containing
only the FIRST address, not the full in-order address list the claim
describes. -/
theorem claim6_counterexample :
    dcFind (lookupRecursive netC6 2 initState tgt5 typeA
        ["198.41.0.4"]).2.delegationCache ["com"] = some ["1.1.1.1"] ∧
      (["1.1.1.1"] : List String) ≠ ["1.1.1.1", "2.2.2.2"] ∧
      (lookupRecursive netC6 2 initState tgt5 typeA ["198.41.0.4"]).1 = some final6 := by
  refine ⟨by decide, by decide, by decide⟩

/-- C6 amended: the extracted glue is the FIRST IPv4 address of each A
record set of the additional section, in order; its deduplicated copy is
stored in DelegationCache under the delegated zone, and the raw extracted
list is what the recursive call receives as candidate servers (that call
deduplicates on entry). -/
theorem claim6_glue_first_of_each_rrset (net : Network) (f : Nat) (s : RState)
    (n : Name) (qt : Nat) (x : String) (m : Message) (z : Name)
    (nsNames : List Name) (g : List String)
    (hmiss : assocFind s.cache (n, qt) = none)
    (hcol : hasColon x = false)
    (hnet : net n qt x = TransportResult.ok m)
    (hans : m.answer = []) (hrc : m.rcode = 0)
    (hsoa : hasSOA m.authority = false)
    (hauth : m.authority ≠ [])
    (hza : zoneAndNs m.authority = (some z, nsNames))
    (hnsne : nsNames ≠ [])
    (hg : glueOf m.additional = some g)
    (hgne : g ≠ []) :
    lookupRecursive net (f + 1) s n qt [x] =
      lookupRecursive net f (writeDeleg z (dedupFirst [] g) (incCalls s)) n qt g := by
  rw [lookupRecursive_miss _ _ _ _ _ _ hmiss]
  have hd : dedupFirst [] [x] = [x] := by simp [dedupFirst]
  rw [hd]
  rcases hr : lookupRecursive net f (writeDeleg z (dedupFirst [] g) (incCalls s)) n qt g
    with ⟨r1, s3⟩
  cases r1 <;>
    simp [serverLoop, hcol, hnet, hans, hrc, hsoa, hauth, hza, hnsne, hg, hgne, hr]

/-- C6 witness: the two-address glue record set produces the one-address
glue list, recorded in the delegation cache and used for the recursion. -/
theorem claim6_witness :
    glueOf referral6.additional = some ["1.1.1.1"] ∧
      referral6.additional = [glueRR6] ∧
      glueRR6.records = [Rdata.ip "1.1.1.1", Rdata.ip "2.2.2.2"] ∧
      lookupRecursive netC6 (1 + 1) initState tgt5 typeA ["3.3.3.3"] =
        lookupRecursive netC6 1
          (writeDeleg ["com"] (dedupFirst [] ["1.1.1.1"]) (incCalls initState))
          tgt5 typeA ["1.1.1.1"] :=
  ⟨by decide, by decide, by decide,
    claim6_glue_first_of_each_rrset netC6 1 initState tgt5 typeA "3.3.3.3" referral6
      ["com"] [["ns1", "com"]] ["1.1.1.1"]
      (by decide) (by decide) (by decide) (by decide) (by decide) (by decide)
      (by decide) (by decide) (by decide) (by decide) (by decide)⟩

/-- C7 counterexample: one `lookup` run writes the SAME key twice with
two DIFFERENT messages — first the engine's raw answer (nonempty
authority), then the driver's synthesized message. -/
theorem claim7_counterexample :
    (lookup netC7 1 initState ["a"] typeA).2.writeLog =
        [((["a"], typeA), mAns7),
          ((["a"], typeA), synthMessage ["a"] typeA mAns7.answer)] ∧
      mAns7 ≠ synthMessage ["a"] typeA mAns7.answer := by
  refine ⟨by decide, by decide⟩

/-- C7 amended: the cache write under the original key is not unique — the
engine may have written a raw message under the same key earlier — but the
driver's write is always the LAST one and stores exactly the message that
`lookup` returns. -/
theorem claim7_last_write_original_key (net : Network) (efuel : Nat) (s : RState)
    (n : Name) (qt : Nat) (hmiss : assocFind s.cache (n, qt) = none) :
    (lookup net efuel s n qt).2.writeLog.getLast? =
      some ((n, qt), (lookup net efuel s n qt).1) := by
  simp only [lookup, hmiss]
  exact (lookupLoop_terminal net efuel n qt 10 s n []).2.1

/-- C7 witness: in the double-write scenario the final write holds the
synthesized message that `lookup` returned. -/
theorem claim7_witness :
    assocFind initState.cache ((["a"] : Name), typeA) = none ∧
      (lookup netC7 1 initState ["a"] typeA).2.writeLog.getLast? =
        some (((["a"] : Name), typeA), synthMessage ["a"] typeA mAns7.answer) :=
  ⟨by decide, by
    rw [claim7_last_write_original_key netC7 1 initState ["a"] typeA (by decide)]
    decide⟩

/-- C8: `lookup` is idempotent: a second call with the state produced by
the first returns the identical result and leaves the state unchanged —
in particular it performs no transport calls. -/
theorem claim8_lookup_idempotent (net : Network) (efuel : Nat) (s : RState)
    (n : Name) (qt : Nat) :
    lookup net efuel (lookup net efuel s n qt).2 n qt = lookup net efuel s n qt ∧
      (lookup net efuel (lookup net efuel s n qt).2 n qt).2.transportCalls =
        (lookup net efuel s n qt).2.transportCalls := by
  have h := lookup_cache_hit net efuel (lookup net efuel s n qt).2 n qt
    (lookup net efuel s n qt).1 (lookup_result_cached net efuel s n qt)
  constructor
  · rw [h]
  · rw [h]

/-- C9: on a cache miss the starting server list is the entry of the
first ancestor (the name itself included) present in DelegationCache,
and the fixed root-server list when no ancestor is present — provided
every cache entry is nonempty, as every entry the engine writes is. -/
theorem claim9_first_cached_ancestor (dc : List (Name × List String)) (n : Name)
    (hne : ∀ p ∈ dc, p.2 ≠ []) :
    findStartServers dc n = (specFirstAncestor dc n).getD ROOT_SERVERS := by
  suffices h : walkStart dc n = specFirstAncestor dc n by
    simp [findStartServers, h]
  induction n with
  | nil =>
    simp only [walkStart, specFirstAncestor]
    rcases hd : dcFind dc [] with _ | ips
    · rfl
    · have hne2 : ips ≠ [] := hne _ (dcFind_mem hd)
      simp [hne2]
  | cons lab rest ih =>
    simp only [walkStart, specFirstAncestor]
    rcases hd : dcFind dc (lab :: rest) with _ | ips
    · exact ih
    · have hne2 : ips ≠ [] := hne _ (dcFind_mem hd)
      simp [hne2]

/-- C9 witness: with `com.` cached, a lookup under `bar.example.com.`
starts from the cached `com.` delegation, not the root list. -/
theorem claim9_witness :
    (∀ p ∈ dc9, p.2 ≠ []) ∧
      findStartServers dc9 ["bar", "example", "com"] = ["5.5.5.5"] ∧
      (["5.5.5.5"] : List String) ≠ ROOT_SERVERS :=
  ⟨by decide,
    by rw [claim9_first_cached_ancestor dc9 ["bar", "example", "com"] (by decide)]; decide,
    by decide⟩

/-- C10: EVERY exception kind raised by a server attempt — timeout,
OS-level I/O error, or any other exception — is swallowed and treated as
a soft failure: the engine's run on `x :: rest` where `x`'s attempt
raises equals its run on `rest` alone (with only the attempt counter
bumped); no exception propagates to the caller. -/
theorem claim10_exception_soft_failure (net : Network) (f : Nat) (s : RState)
    (n : Name) (qt : Nat) (e : ExnKind) (x : String) (rest : List String)
    (hmiss : assocFind s.cache (n, qt) = none)
    (hcol : hasColon x = false)
    (hnet : net n qt x = TransportResult.exn e)
    (hnotin : x ∉ rest) :
    lookupRecursive net (f + 1) s n qt (x :: rest) =
      lookupRecursive net (f + 1) (incCalls s) n qt rest := by
  rw [lookupRecursive_miss _ _ _ _ _ _ hmiss,
    lookupRecursive_miss _ _ _ _ _ _ (show assocFind (incCalls s).cache (n, qt) = none
      from hmiss)]
  have hd : dedupFirst [] (x :: rest) = x :: dedupFirst [x] rest := by
    simp [dedupFirst]
  rw [hd, dedupFirst_seen_notmem x rest [] hnotin]
  simp [serverLoop, hcol, hnet]

/-- C10 witness: a non-transport exception (`other`) on the first server
advances to the second server exactly like a timeout would. -/
theorem claim10_witness :
    netW10 (["c"] : Name) typeA "6.6.6.6" = TransportResult.exn ExnKind.other ∧
      lookupRecursive netW10 1 initState ["c"] typeA ["6.6.6.6", "7.7.7.7"] =
        lookupRecursive netW10 1 (incCalls initState) ["c"] typeA ["7.7.7.7"] :=
  ⟨by decide,
    claim10_exception_soft_failure netW10 0 initState ["c"] typeA ExnKind.other
      "6.6.6.6" ["7.7.7.7"] (by decide) (by decide) (by decide) (by decide)⟩

end Resolve
